import Mathlib

/-!
Shallow embedding of the conflict-detection and alternative-slot engine of
the Teams-MCP repository (src/src/services/conflictResolutionService.ts and
src/src/utils/dateTimeUtils.ts), together with proofs of the spec claims.

Modelling conventions:
* A JavaScript `Date` is modelled as an `Int` counting minutes since an
  arbitrary epoch in the local reference zone.  `setHours(h, 0, 0, 0)`
  becomes "floor to the start of the day, then add `h * 60` minutes", and
  `setDate(getDate() + k)` becomes "add `k * 1440` minutes" (daylight-saving
  shifts are outside the model).  Meeting durations, computed in the source
  in milliseconds, are carried in minutes.
* `toLocaleString` rendering is replaced by the injective decimal rendering
  `fmtInstant`; no claim depends on the concrete display format.
* Calls to the Microsoft Graph wrapper (`GraphService`) are modelled by a
  record of pure functions returning `Except ProviderError _`: an `error`
  value stands for a thrown/rejected provider call, which the source
  catches.  The loosely typed `meetingData: any` argument is modelled by
  `MeetingData`, whose `attendees : Option (List String)` is `none` exactly
  when the source field is absent or not an array.
-/

namespace TeamsMCP

/-- Error raised by a Calendar Provider lookup (transport/auth failure). -/
structure ProviderError where
  msg : String
  deriving Repr, DecidableEq

/-- A calendar event as returned by `graphService.getCalendarEvents`
(`event.start.dateTime`, `event.end.dateTime`, `event.subject`; the nested
`dateTime` fields are flattened and `end` is renamed `endDateTime` because
`end` is a reserved word). -/
structure Meeting where
  startDateTime : Int
  endDateTime : Int
  subject : String
  deriving Repr, DecidableEq

/-- One segment of the free/busy answer of
`graphService.checkTimeSlotAvailability`. -/
structure FreeBusySlot where
  freeBusyStatus : String
  start : Int
  stop : Int
  deriving Repr, DecidableEq

/-- The Calendar Provider capability consumed by the engine: the two
`GraphService` methods the conflict detector calls, as pure functions of the
calendar state.  An `Except.error` result models a rejected promise. -/
structure GraphService where
  getCalendarEvents : String → Int → Int → Except ProviderError (List Meeting)
  checkTimeSlotAvailability : String → Int → Int → Except ProviderError (List FreeBusySlot)

/-- The `Conflict` interface of conflictResolutionService.ts. -/
structure Conflict where
  attendee : String
  type : String
  time : String
  details : String
  deriving Repr, DecidableEq

/-- The `ConflictResolution` interface of conflictResolutionService.ts. -/
structure ConflictResolution where
  type : String
  newTime : Option String
  alternatives : Option (List String)
  message : String
  deriving Repr, DecidableEq

/-- The loosely typed `meetingData` argument: `attendees` is `none` when the
field is absent or not an array (`!attendees || !Array.isArray(attendees)`). -/
structure MeetingData where
  attendees : Option (List String)
  startTime : Int
  endTime : Int
  deriving Repr, DecidableEq

/-- Stand-in for `Date.prototype.toLocaleString`: an injective rendering of
an instant. -/
def fmtInstant (t : Int) : String := toString t

/-- Rendering of a window, `start - end`, as the source builds conflict and
candidate descriptions. -/
def fmtRange (s e : Int) : String := fmtInstant s ++ " - " ++ fmtInstant e

/-- Start of the local day containing instant `t` (what `setHours` keeps). -/
def dayBase (t : Int) : Int := t.fdiv 1440 * 1440

/-- JavaScript `d.setHours(h, 0, 0, 0)`: same local day, clock set to hour
`h`. -/
def setHours (t : Int) (h : Nat) : Int := dayBase t + h * 60

/-- JavaScript `d.setDate(d.getDate() + k)`: shift by `k` calendar days. -/
def addDays (t : Int) (k : Nat) : Int := t + 1440 * k

/-- JavaScript `d.getDay()`: day of the week, 0 = Sunday.  The epoch day of
the model is a Thursday (day 4), matching 1 Jan 1970. -/
def getDay (t : Int) : Int := (t.fdiv 1440 + 4) % 7

/-- `hasTimeOverlap` of conflictResolutionService.ts: strict interval
overlap, `startTime1 < endTime2 && startTime2 < endTime1`. -/
def hasTimeOverlap (start1 end1 start2 end2 : Int) : Bool :=
  decide (start1 < end2) && decide (start2 < end1)

/-- `checkAttendeeConflicts`: event conflicts (overlap test against each
calendar event) followed by busy-status conflicts (every non-`free`
availability segment).  The source wraps the whole body in `try/catch`
returning `[]`, so an error in either provider call discards everything,
including event conflicts already collected. -/
def checkAttendeeConflicts (gs : GraphService) (attendee : String)
    (startTime endTime : Int) : List Conflict :=
  match gs.getCalendarEvents attendee startTime endTime with
  | Except.error _ => []
  | Except.ok calendarEvents =>
    match gs.checkTimeSlotAvailability attendee startTime endTime with
    | Except.error _ => []
    | Except.ok availability =>
      (calendarEvents.filter fun event =>
          hasTimeOverlap startTime endTime event.startDateTime event.endDateTime).map
        (fun event =>
          { attendee := attendee
            type := "meeting"
            time := fmtRange event.startDateTime event.endDateTime
            details := event.subject })
      ++ (availability.filter fun slot => slot.freeBusyStatus ≠ "free").map
        (fun slot =>
          { attendee := attendee
            type := "busy"
            time := fmtRange slot.start slot.stop
            details := "Status: " ++ slot.freeBusyStatus })

/-- The per-attendee loop of `detectConflicts`: push each attendee's
conflicts in input order. -/
def detectConflictsLoop (gs : GraphService) (startTime endTime : Int) :
    List String → List Conflict
  | [] => []
  | attendee :: rest =>
    checkAttendeeConflicts gs attendee startTime endTime
      ++ detectConflictsLoop gs startTime endTime rest

/-- `detectConflicts`: returns `[]` when `attendees` is absent or not an
array, otherwise aggregates each attendee's conflicts.  The outer
`try/catch` of the source (returning `[]`) has no reachable throwing site in
the model, every provider failure being caught inside
`checkAttendeeConflicts`. -/
def detectConflicts (gs : GraphService) (meetingData : MeetingData) :
    List Conflict :=
  match meetingData.attendees with
  | none => []
  | some attendees =>
    detectConflictsLoop gs meetingData.startTime meetingData.endTime attendees

/-- The inner hour loop of `findNextAvailableSlots`
(`for hour = 9; hour < 18 && alternatives.length < maxSlots; hour++`):
a window is appended exactly when fewer than `maxSlots` candidates are
collected and `detectConflicts` on it is empty.  Candidates are kept as
`(start, stop)` windows; the source formats them with `toLocaleString` at
the same point. -/
def findSlotsHourLoop (gs : GraphService) (originalData : MeetingData)
    (maxSlots : Nat) (searchDate duration : Int) :
    List Nat → List (Int × Int) → List (Int × Int)
  | [], alternatives => alternatives
  | hour :: rest, alternatives =>
    if alternatives.length < maxSlots then
      let slotStart := setHours searchDate hour
      let slotEnd := slotStart + duration
      let conflicts := detectConflicts gs
        { originalData with startTime := slotStart, endTime := slotEnd }
      let alternatives' :=
        if conflicts.length = 0 then alternatives ++ [(slotStart, slotEnd)]
        else alternatives
      findSlotsHourLoop gs originalData maxSlots searchDate duration rest
        alternatives'
    else alternatives

/-- The outer day loop of `findNextAvailableSlots`
(`for dayOffset = 0; dayOffset < 7 && alternatives.length < maxSlots;
dayOffset++`). -/
def findSlotsDayLoop (gs : GraphService) (originalData : MeetingData)
    (maxSlots : Nat) (duration : Int) :
    List Nat → List (Int × Int) → List (Int × Int)
  | [], alternatives => alternatives
  | dayOffset :: rest, alternatives =>
    if alternatives.length < maxSlots then
      let searchDate := addDays originalData.startTime dayOffset
      findSlotsDayLoop gs originalData maxSlots duration rest
        (findSlotsHourLoop gs originalData maxSlots searchDate duration
          (List.range' 9 9) alternatives)
    else alternatives

/-- `findNextAvailableSlots`: scan day offsets 0..6 and hours 9..17, keeping
every window on which `detectConflicts` is empty, until `maxSlots` windows
are found.  The source's `catch` branch (returning a one-element apology
list) has no reachable throwing site in the model. -/
def findNextAvailableSlots (gs : GraphService) (originalData : MeetingData)
    (maxSlots : Nat) : List (Int × Int) :=
  let duration := originalData.endTime - originalData.startTime
  findSlotsDayLoop gs originalData maxSlots duration (List.range 7) []

/-- The preferred-hours loop of `suggestOptimalTimes`
(`for (const hour of preferredHours)`); pushes a window on zero conflicts
and breaks once 3 suggestions are collected. -/
def preferredHoursLoop (gs : GraphService) (attendees : List String)
    (duration : Int) (searchDate : Int) :
    List Nat → List (Int × Int) → List (Int × Int)
  | [], suggestions => suggestions
  | hour :: rest, suggestions =>
    let slotStart := setHours searchDate hour
    let slotEnd := slotStart + duration
    let conflicts := detectConflicts gs
      { attendees := some attendees, startTime := slotStart, endTime := slotEnd }
    if conflicts.length = 0 then
      let suggestions' := suggestions ++ [(slotStart, slotEnd)]
      if 3 ≤ suggestions'.length then suggestions'
      else preferredHoursLoop gs attendees duration searchDate rest suggestions'
    else preferredHoursLoop gs attendees duration searchDate rest suggestions

/-- The day loop of `suggestOptimalTimes`
(`for dayOffset = 0; dayOffset < 5 && suggestions.length < 3; dayOffset++`)
with the weekend `continue`. -/
def suggestDayLoop (gs : GraphService) (attendees : List String)
    (duration now : Int) : List Nat → List (Int × Int) → List (Int × Int)
  | [], suggestions => suggestions
  | dayOffset :: rest, suggestions =>
    if suggestions.length < 3 then
      let searchDate := addDays now dayOffset
      if getDay searchDate = 0 ∨ getDay searchDate = 6 then
        suggestDayLoop gs attendees duration now rest suggestions
      else
        suggestDayLoop gs attendees duration now rest
          (preferredHoursLoop gs attendees duration searchDate [10, 14, 16]
            suggestions)
    else suggestions

/-- `suggestOptimalTimes(attendees, duration = 60)`: preferred hours 10:00,
14:00, 16:00 over the next 5 days, skipping weekends, stopping at 3
suggestions.  `now` (the source's `new Date()`) is passed explicitly. -/
def suggestOptimalTimes (gs : GraphService) (now : Int)
    (attendees : List String) (duration : Int := 60) : List (Int × Int) :=
  suggestDayLoop gs attendees duration now (List.range 5) []

/-- `rescheduleByOffset(originalData, offsetMinutes)`: shift the window by
the offset; conflict-free shifted window gives a `reschedule` outcome, else
an `alternative` outcome offering the start shifted by a further +60 and
+120 minutes (unverified). -/
def rescheduleByOffset (gs : GraphService) (originalData : MeetingData)
    (offsetMinutes : Int) : ConflictResolution :=
  let newStart := originalData.startTime + offsetMinutes
  let newEnd := originalData.endTime + offsetMinutes
  let newConflicts := detectConflicts gs
    { originalData with startTime := newStart, endTime := newEnd }
  if newConflicts.length = 0 then
    { type := "reschedule"
      newTime := some (fmtRange newStart newEnd)
      alternatives := none
      message := "Successfully rescheduled to " ++ fmtInstant newStart }
  else
    { type := "alternative"
      newTime := none
      alternatives := some [fmtInstant (newStart + 60), fmtInstant (newStart + 120)]
      message := "The suggested time also has conflicts. Please try a different time." }

/-- `rescheduleToNextDay(originalData)`: literal next calendar day, same
clock time; falls back to a broad search for 3 alternatives. -/
def rescheduleToNextDay (gs : GraphService) (originalData : MeetingData) :
    ConflictResolution :=
  let nextDayStart := addDays originalData.startTime 1
  let nextDayEnd := addDays originalData.endTime 1
  let newConflicts := detectConflicts gs
    { originalData with startTime := nextDayStart, endTime := nextDayEnd }
  if newConflicts.length = 0 then
    { type := "reschedule"
      newTime := some (fmtRange nextDayStart nextDayEnd)
      alternatives := none
      message := "Successfully rescheduled to tomorrow at " ++ fmtInstant nextDayStart }
  else
    { type := "alternative"
      newTime := none
      alternatives := some ((findNextAvailableSlots gs originalData 3).map
        fun c => fmtRange c.1 c.2)
      message := "Tomorrow also has conflicts. Here are some alternatives:" }

/-- `findAlternativeTimeSlots(originalData)`: broad search for 5
alternatives. -/
def findAlternativeTimeSlots (gs : GraphService) (originalData : MeetingData) :
    ConflictResolution :=
  { type := "alternative"
    newTime := none
    alternatives := some ((findNextAvailableSlots gs originalData 5).map
      fun c => fmtRange c.1 c.2)
    message := "Found these alternative time slots when everyone is available:" }

/-- The `conflictData` argument of `resolveConflict`.  A `none` argument to
`resolveConflict` models a value whose destructuring throws (e.g. `null`),
which the source's `catch` turns into the second `force` outcome. -/
structure ConflictData where
  resolution : String
  originalData : MeetingData

/-- `resolveConflict(conflictData)`: dispatch on the resolution directive;
any unknown directive yields the `force` outcome, and an error while reading
the input yields the other `force` outcome. -/
def resolveConflict (gs : GraphService) (conflictData : Option ConflictData) :
    ConflictResolution :=
  match conflictData with
  | none =>
    { type := "force"
      newTime := none
      alternatives := none
      message := "Unable to resolve conflicts automatically" }
  | some cd =>
    if cd.resolution = "move1hour" then
      rescheduleByOffset gs cd.originalData 60
    else if cd.resolution = "tomorrow" then
      rescheduleToNextDay gs cd.originalData
    else if cd.resolution = "findAlternative" then
      findAlternativeTimeSlots gs cd.originalData
    else
      { type := "force"
        newTime := none
        alternatives := none
        message := "Meeting will be scheduled despite conflicts" }

/-- `DateTimeUtils.getBusinessHours(date, startHour = 9, endHour = 17)`:
both bounds are the given date with the clock set to the hour. -/
def getBusinessHours (date : Int) (startHour : Nat := 9) (endHour : Nat := 17) :
    Int × Int :=
  (setHours date startHour, setHours date endHour)

/-- The `while (current < end)` loop of `DateTimeUtils.generateTimeSlots`,
driven by structural fuel.  Each iteration pushes `current` and advances it
by `intervalMinutes`; with `0 < intervalMinutes` and enough fuel this
coincides with the source loop (the source diverges when the interval is 0,
which the model leaves out by also stopping on a zero interval). -/
def generateTimeSlotsLoop (stop : Int) (intervalMinutes : Nat) :
    Nat → Int → List Int
  | 0, _ => []
  | fuel + 1, current =>
    if current < stop ∧ 0 < intervalMinutes then
      current :: generateTimeSlotsLoop stop intervalMinutes fuel
        (current + intervalMinutes)
    else []

/-- `DateTimeUtils.generateTimeSlots(date, startHour = 9, endHour = 17,
intervalMinutes = 30)`: start instants spaced `intervalMinutes` apart from
`startHour` while strictly before `endHour` on the same day. -/
def generateTimeSlots (date : Int) (startHour : Nat := 9) (endHour : Nat := 17)
    (intervalMinutes : Nat := 30) : List Int :=
  let current := setHours date startHour
  let stop := setHours date endHour
  generateTimeSlotsLoop stop intervalMinutes ((stop - current).toNat + 1) current

/-! Concrete Calendar Provider states used to witness the theorems. -/

/-- A provider on which every attendee is fully free. -/
def gsAllFree : GraphService :=
  { getCalendarEvents := fun _ _ _ => Except.ok []
    checkTimeSlotAvailability := fun _ _ _ => Except.ok [] }

/-- A provider reporting one busy segment for every attendee and window. -/
def gsBusy : GraphService :=
  { getCalendarEvents := fun _ _ _ => Except.ok []
    checkTimeSlotAvailability := fun _ _ _ =>
      Except.ok [{ freeBusyStatus := "busy", start := 0, stop := 60 }] }

/-- A provider where the lookup for `b@x.com` fails and every other attendee
has one event from minute 870 to minute 930. -/
def gsDemo : GraphService :=
  { getCalendarEvents := fun attendee _ _ =>
      if attendee = "b@x.com" then Except.error { msg := "network" }
      else Except.ok [{ startDateTime := 870, endDateTime := 930, subject := "Standup" }]
    checkTimeSlotAvailability := fun _ _ _ => Except.ok [] }

/-! Helper lemmas. -/

/-- A failing events lookup silences the whole of that attendee's
contribution. -/
theorem checkAttendeeConflicts_eventsError (gs : GraphService)
    {attendee : String} {s e : Int} {err : ProviderError}
    (h : gs.getCalendarEvents attendee s e = Except.error err) :
    checkAttendeeConflicts gs attendee s e = [] := by
  simp [checkAttendeeConflicts, h]

/-- The attendee loop distributes over list append. -/
theorem detectConflictsLoop_append (gs : GraphService) (s e : Int)
    (l₁ l₂ : List String) :
    detectConflictsLoop gs s e (l₁ ++ l₂)
      = detectConflictsLoop gs s e l₁ ++ detectConflictsLoop gs s e l₂ := by
  induction l₁ with
  | nil => simp [detectConflictsLoop]
  | cons a rest ih => simp [detectConflictsLoop, ih]

/-- C9. `detectConflicts` never reaches the Provider when the attendees
field is absent or not a list: for every provider state it returns the empty
conflict list (and, being a total function of the model, it never raises). -/
theorem claim_c9_detect_total (gs : GraphService) (s e : Int) :
    detectConflicts gs { attendees := none, startTime := s, endTime := e } = [] :=
  rfl

/-- C2. If the Provider lookup for one attendee fails, `detectConflicts`
still returns exactly the conflicts of the remaining attendees, in order:
the failing attendee's contribution is skipped and nothing else changes. -/
theorem claim_c2_attendee_isolation (gs : GraphService) (s e : Int)
    (pre post : List String) (b : String) (err : ProviderError)
    (hb : gs.getCalendarEvents b s e = Except.error err) :
    detectConflicts gs { attendees := some (pre ++ b :: post), startTime := s, endTime := e }
      = detectConflicts gs { attendees := some (pre ++ post), startTime := s, endTime := e } := by
  simp [detectConflicts, detectConflictsLoop_append, detectConflictsLoop,
    checkAttendeeConflicts_eventsError gs hb]

/-- Witness for C2: with `b@x.com`'s lookup failing, a two-attendee
detection equals the one-attendee detection, which is itself non-empty. -/
theorem claim_c2_witness :
    gsDemo.getCalendarEvents "b@x.com" 840 900 = Except.error { msg := "network" } ∧
    detectConflicts gsDemo
        { attendees := some ["a@x.com", "b@x.com"], startTime := 840, endTime := 900 }
      = detectConflicts gsDemo
        { attendees := some ["a@x.com"], startTime := 840, endTime := 900 } ∧
    detectConflicts gsDemo
        { attendees := some ["a@x.com"], startTime := 840, endTime := 900 } ≠ [] :=
  ⟨rfl,
    claim_c2_attendee_isolation gsDemo 840 900 ["a@x.com"] [] "b@x.com"
      { msg := "network" } rfl,
    by decide⟩

/-- C6. The overlap test is true exactly on strict double inequality, so
back-to-back windows never overlap. -/
theorem claim_c6_overlap_strict :
    (∀ a b c d : Int, hasTimeOverlap a b c d = true ↔ (a < d ∧ c < b)) ∧
    (∀ t0 t1 t2 : Int, t0 < t1 → t1 < t2 → hasTimeOverlap t0 t1 t1 t2 = false) := by
  constructor
  · intro a b c d
    simp [hasTimeOverlap]
  · intro t0 t1 t2 _ _
    simp [hasTimeOverlap]

/-- Witness for C6 at concrete instants 0 < 10 < 20. -/
theorem claim_c6_witness :
    hasTimeOverlap 0 10 10 20 = false ∧
    (hasTimeOverlap 0 10 5 20 = true ↔ ((0 : Int) < 20 ∧ (5 : Int) < 10)) :=
  ⟨claim_c6_overlap_strict.2 0 10 20 (by decide) (by decide),
    claim_c6_overlap_strict.1 0 10 5 20⟩

/-- C5 counterexample: with only a date supplied, `getBusinessHours` ends
the window at minute 1020 of the day, i.e. 17:00, not 18:00 as claimed. -/
theorem claim_c5_counterexample :
    getBusinessHours 0 = (540, 1020) ∧ (1020 : Int) ≠ 18 * 60 := by
  decide

/-- C5 amended: the default business window runs 09:00 to 17:00 local time
of the given date, and explicit hours give the corresponding custom
window. -/
theorem claim_c5_amended (date : Int) :
    getBusinessHours date = (dayBase date + 9 * 60, dayBase date + 17 * 60) ∧
    ∀ startHour endHour : Nat,
      getBusinessHours date startHour endHour
        = (dayBase date + startHour * 60, dayBase date + endHour * 60) :=
  ⟨rfl, fun _ _ => rfl⟩

/-- Emission invariant of the hour loop: if every accumulated window is
conflict-free, so is every window in the loop's result. -/
theorem findSlotsHourLoop_conflictFree (gs : GraphService) (od : MeetingData)
    (maxSlots : Nat) (searchDate duration : Int) (hours : List Nat)
    (acc : List (Int × Int))
    (hacc : ∀ c ∈ acc,
      detectConflicts gs { od with startTime := c.1, endTime := c.2 } = []) :
    ∀ c ∈ findSlotsHourLoop gs od maxSlots searchDate duration hours acc,
      detectConflicts gs { od with startTime := c.1, endTime := c.2 } = [] := by
  induction hours generalizing acc with
  | nil => simpa [findSlotsHourLoop] using hacc
  | cons hour rest ih =>
    rw [findSlotsHourLoop]
    split
    · apply ih
      intro c hc
      split at hc
      · rename_i hlen
        rcases List.mem_append.1 hc with h | h
        · exact hacc c h
        · rcases List.mem_singleton.1 h with rfl
          exact List.length_eq_zero.1 hlen
      · exact hacc c hc
    · exact hacc

/-- Emission invariant of the day loop. -/
theorem findSlotsDayLoop_conflictFree (gs : GraphService) (od : MeetingData)
    (maxSlots : Nat) (duration : Int) (days : List Nat)
    (acc : List (Int × Int))
    (hacc : ∀ c ∈ acc,
      detectConflicts gs { od with startTime := c.1, endTime := c.2 } = []) :
    ∀ c ∈ findSlotsDayLoop gs od maxSlots duration days acc,
      detectConflicts gs { od with startTime := c.1, endTime := c.2 } = [] := by
  induction days generalizing acc with
  | nil => simpa [findSlotsDayLoop] using hacc
  | cons d rest ih =>
    rw [findSlotsDayLoop]
    split
    · exact ih _ (findSlotsHourLoop_conflictFree gs od maxSlots _ duration _ acc hacc)
    · exact hacc

/-- Emission invariant of the preferred-hours loop. -/
theorem preferredHoursLoop_conflictFree (gs : GraphService)
    (attendees : List String) (duration searchDate : Int) (hours : List Nat)
    (acc : List (Int × Int))
    (hacc : ∀ c ∈ acc,
      detectConflicts gs
        { attendees := some attendees, startTime := c.1, endTime := c.2 } = []) :
    ∀ c ∈ preferredHoursLoop gs attendees duration searchDate hours acc,
      detectConflicts gs
        { attendees := some attendees, startTime := c.1, endTime := c.2 } = [] := by
  induction hours generalizing acc with
  | nil => simpa [preferredHoursLoop] using hacc
  | cons hour rest ih =>
    rw [preferredHoursLoop]
    dsimp only
    split
    · rename_i hlen
      have hacc' : ∀ c ∈ acc ++ [(setHours searchDate hour, setHours searchDate hour + duration)],
        detectConflicts gs
          { attendees := some attendees, startTime := c.1, endTime := c.2 } = [] := by
        intro c hc
        rcases List.mem_append.1 hc with h | h
        · exact hacc c h
        · rcases List.mem_singleton.1 h with rfl
          exact List.length_eq_zero.1 hlen
      split
      · exact hacc'
      · exact ih _ hacc'
    · exact ih _ hacc

/-- Emission invariant of the suggestion day loop. -/
theorem suggestDayLoop_conflictFree (gs : GraphService)
    (attendees : List String) (duration now : Int) (days : List Nat)
    (acc : List (Int × Int))
    (hacc : ∀ c ∈ acc,
      detectConflicts gs
        { attendees := some attendees, startTime := c.1, endTime := c.2 } = []) :
    ∀ c ∈ suggestDayLoop gs attendees duration now days acc,
      detectConflicts gs
        { attendees := some attendees, startTime := c.1, endTime := c.2 } = [] := by
  induction days generalizing acc with
  | nil => simpa [suggestDayLoop] using hacc
  | cons d rest ih =>
    rw [suggestDayLoop]
    dsimp only
    split
    · split
      · exact ih _ hacc
      · exact ih _ (preferredHoursLoop_conflictFree gs attendees duration _ _ acc hacc)
    · exact hacc

/-- C1. Every candidate window emitted by the broad search or by the
preferred-hours search is conflict-free: re-running `detectConflicts` on the
emitted window, with the same attendees and the same provider state, yields
the empty conflict list. -/
theorem claim_c1_candidates_conflict_free (gs : GraphService)
    (originalData : MeetingData) (maxSlots : Nat) (now : Int)
    (attendees : List String) (duration : Int) :
    (∀ c ∈ findNextAvailableSlots gs originalData maxSlots,
      detectConflicts gs
        { originalData with startTime := c.1, endTime := c.2 } = []) ∧
    (∀ c ∈ suggestOptimalTimes gs now attendees duration,
      detectConflicts gs
        { attendees := some attendees, startTime := c.1, endTime := c.2 } = []) :=
  ⟨findSlotsDayLoop_conflictFree gs originalData maxSlots _ _ [] (by simp),
    suggestDayLoop_conflictFree gs attendees duration now _ [] (by simp)⟩

/-- Witness for C1: on an all-free provider the broad search emits the
window (540, 600) and the preferred-hours search emits (600, 660), and both
are conflict-free. -/
theorem claim_c1_witness :
    ((540, 600) ∈ findNextAvailableSlots gsAllFree
        { attendees := some ["a@x.com"], startTime := 600, endTime := 660 } 3 ∧
      detectConflicts gsAllFree
        { attendees := some ["a@x.com"], startTime := 540, endTime := 600 } = []) ∧
    ((600, 660) ∈ suggestOptimalTimes gsAllFree 0 ["a@x.com"] 60 ∧
      detectConflicts gsAllFree
        { attendees := some ["a@x.com"], startTime := 600, endTime := 660 } = []) :=
  ⟨⟨by decide,
      (claim_c1_candidates_conflict_free gsAllFree
        { attendees := some ["a@x.com"], startTime := 600, endTime := 660 } 3 0
        ["a@x.com"] 60).1 (540, 600) (by decide)⟩,
    ⟨by decide,
      (claim_c1_candidates_conflict_free gsAllFree
        { attendees := some ["a@x.com"], startTime := 600, endTime := 660 } 3 0
        ["a@x.com"] 60).2 (600, 660) (by decide)⟩⟩

/-- Length invariant of the hour loop: the accumulator never grows past
`maxSlots`. -/
theorem findSlotsHourLoop_length (gs : GraphService) (od : MeetingData)
    (maxSlots : Nat) (searchDate duration : Int) (hours : List Nat)
    (acc : List (Int × Int)) (hacc : acc.length ≤ maxSlots) :
    (findSlotsHourLoop gs od maxSlots searchDate duration hours acc).length
      ≤ maxSlots := by
  induction hours generalizing acc with
  | nil => simpa [findSlotsHourLoop] using hacc
  | cons hour rest ih =>
    rw [findSlotsHourLoop]
    split
    · apply ih
      split
      · simpa using by omega
      · exact hacc
    · exact hacc

/-- Length invariant of the day loop. -/
theorem findSlotsDayLoop_length (gs : GraphService) (od : MeetingData)
    (maxSlots : Nat) (duration : Int) (days : List Nat)
    (acc : List (Int × Int)) (hacc : acc.length ≤ maxSlots) :
    (findSlotsDayLoop gs od maxSlots duration days acc).length ≤ maxSlots := by
  induction days generalizing acc with
  | nil => simpa [findSlotsDayLoop] using hacc
  | cons d rest ih =>
    rw [findSlotsDayLoop]
    split
    · exact ih _ (findSlotsHourLoop_length gs od maxSlots _ duration _ acc hacc)
    · exact hacc

/-- C8. The broad search never returns more candidates than its
`maxSlots` bound, for every provider state and request. -/
theorem claim_c8_bounded_results (gs : GraphService) (originalData : MeetingData)
    (maxSlots : Nat) :
    (findNextAvailableSlots gs originalData maxSlots).length ≤ maxSlots :=
  findSlotsDayLoop_length gs originalData maxSlots _ _ [] (by simp)

/-- C3 counterexample: a request with end (minute 40) before start (minute
100) is not rejected — `detectConflicts` proceeds, issues the attendee's
Provider lookups, and returns the busy-status conflict the Provider data
yields, exactly as for a well-formed request. -/
theorem claim_c3_counterexample :
    (40 : Int) < 100 ∧
    detectConflicts gsBusy
        { attendees := some ["a@x.com"], startTime := 100, endTime := 40 }
      = [{ attendee := "a@x.com", type := "busy", time := fmtRange 0 60,
           details := "Status: busy" }] :=
  ⟨by decide, rfl⟩

/-- C3 amended: `detectConflicts` performs no input validation and never
rejects a malformed request; a window with end before start is passed to the
Calendar Provider unchanged and the provider-derived conflicts are returned
(only an absent or non-list attendees field short-circuits to the empty
list, without any Provider call). -/
theorem claim_c3_amended (s e : Int) (a : String) (_h : e < s) :
    detectConflicts gsBusy { attendees := some [a], startTime := s, endTime := e }
      = [{ attendee := a, type := "busy", time := fmtRange 0 60,
           details := "Status: busy" }] := by
  simp [detectConflicts, detectConflictsLoop, checkAttendeeConflicts, gsBusy]

/-- Witness for the amended C3 at the malformed window (100, 40). -/
theorem claim_c3_witness :
    (40 : Int) < 100 ∧
    detectConflicts gsBusy
        { attendees := some ["x@y.com"], startTime := 100, endTime := 40 }
      = [{ attendee := "x@y.com", type := "busy", time := fmtRange 0 60,
           details := "Status: busy" }] :=
  ⟨by decide, claim_c3_amended 100 40 "x@y.com" (by decide)⟩

/-- C4 counterexample: `generateTimeSlots` on the 09:00–10:00 window with a
45-minute interval emits a slot starting at minute 585 (09:45) whose end,
585 + 45 = 630, lies past the minute-600 (10:00) boundary: a partial
trailing slot is produced. -/
theorem claim_c4_counterexample :
    generateTimeSlots 0 9 10 45 = [540, 585] ∧
    (540 : Int) + 45 ≤ 600 ∧ ¬((585 : Int) + 45 ≤ 600) :=
  ⟨rfl, by decide, by decide⟩

/-- Every start emitted by the slot loop lies strictly before the window
end. -/
theorem generateTimeSlotsLoop_lt (stop : Int) (intervalMinutes : Nat) :
    ∀ (fuel : Nat) (current s : Int),
      s ∈ generateTimeSlotsLoop stop intervalMinutes fuel current → s < stop := by
  intro fuel
  induction fuel with
  | zero => intro current s hs; simp [generateTimeSlotsLoop] at hs
  | succ n ih =>
    intro current s hs
    rw [generateTimeSlotsLoop] at hs
    split at hs
    · rename_i hcond
      rcases List.mem_cons.1 hs with rfl | hs
      · exact hcond.1
      · exact ih _ s hs
    · simp at hs

/-- C4 amended: every slot emitted by `generateTimeSlots` STARTS strictly
before the `endHour` boundary; the slot's end (start plus the interval) is
not constrained and may run past `endHour`, so a partial trailing slot can
be produced. -/
theorem claim_c4_amended (date : Int) (startHour endHour intervalMinutes : Nat)
    (s : Int) (hs : s ∈ generateTimeSlots date startHour endHour intervalMinutes) :
    s < setHours date endHour :=
  generateTimeSlotsLoop_lt _ _ _ _ s hs

/-- Witness for the amended C4: the trailing slot 585 of the 09:00–10:00
window starts before minute 600. -/
theorem claim_c4_witness :
    (585 : Int) ∈ generateTimeSlots 0 9 10 45 ∧ (585 : Int) < setHours 0 10 :=
  ⟨by decide, claim_c4_amended 0 9 10 45 585 (by decide)⟩

/-- C7. The `move1hour` directive shifts the proposal by +60 minutes; a
conflict-free shifted window yields the `reschedule` outcome for that
window, otherwise the outcome is the `alternative` one carrying exactly the
two unverified fallback starts at +120 and +180 minutes from the original
start (never re-checked against the provider). -/
theorem claim_c7_offset_resolution (gs : GraphService) (od : MeetingData) :
    resolveConflict gs (some { resolution := "move1hour", originalData := od })
      = if detectConflicts gs
            { od with startTime := od.startTime + 60, endTime := od.endTime + 60 } = []
        then
          { type := "reschedule"
            newTime := some (fmtRange (od.startTime + 60) (od.endTime + 60))
            alternatives := none
            message := "Successfully rescheduled to " ++ fmtInstant (od.startTime + 60) }
        else
          { type := "alternative"
            newTime := none
            alternatives := some [fmtInstant (od.startTime + 120), fmtInstant (od.startTime + 180)]
            message := "The suggested time also has conflicts. Please try a different time." } := by
  show rescheduleByOffset gs od 60 = _
  rw [rescheduleByOffset]
  have h120 : od.startTime + 60 + 60 = od.startTime + 120 := by ring
  have h180 : od.startTime + 60 + 120 = od.startTime + 180 := by ring
  rw [h120, h180]
  by_cases h : detectConflicts gs
      { od with startTime := od.startTime + 60, endTime := od.endTime + 60 } = []
  · rw [if_pos h, if_pos (by simp [h])]
  · rw [if_neg h, if_neg (by simpa [List.length_eq_zero] using h)]

/-- C10. `resolveConflict` is total and defaults to forcing: any directive
outside move1hour / tomorrow / findAlternative yields the constant `force`
outcome (independent of the provider, so no search is performed), and a
conflict payload whose destructuring fails yields the other `force` outcome
instead of propagating an error. -/
theorem claim_c10_default_force (gs : GraphService) (cd : ConflictData)
    (h1 : cd.resolution ≠ "move1hour") (h2 : cd.resolution ≠ "tomorrow")
    (h3 : cd.resolution ≠ "findAlternative") :
    resolveConflict gs (some cd)
      = { type := "force", newTime := none, alternatives := none,
          message := "Meeting will be scheduled despite conflicts" } ∧
    ∀ gs' : GraphService,
      resolveConflict gs' none
        = { type := "force", newTime := none, alternatives := none,
            message := "Unable to resolve conflicts automatically" } := by
  refine ⟨?_, fun _ => rfl⟩
  simp [resolveConflict, h1, h2, h3]

/-- Witness for C10 at the unknown directive `keep`. -/
theorem claim_c10_witness :
    resolveConflict gsBusy
        (some { resolution := "keep"
                originalData := { attendees := some ["a@x.com"], startTime := 0, endTime := 60 } })
      = { type := "force", newTime := none, alternatives := none,
          message := "Meeting will be scheduled despite conflicts" } ∧
    ∀ gs' : GraphService,
      resolveConflict gs' none
        = { type := "force", newTime := none, alternatives := none,
            message := "Unable to resolve conflicts automatically" } :=
  claim_c10_default_force gsBusy
    { resolution := "keep"
      originalData := { attendees := some ["a@x.com"], startTime := 0, endTime := 60 } }
    (by decide) (by decide) (by decide)

end TeamsMCP
